import Mathlib

/-!
Shallow embedding of the gap-filling engine in `src/data_processing.py`
(`DailyMetric`, `SingleDateMetric`, `LinearMetric`,
`LinearExtrapolationMetric`, `LinearInterpolationMetric`,
`DailyMetricCollection` and its generator `get`).

Modelling conventions:
- calendar dates are integers (days since an arbitrary epoch); `timedelta`
  arithmetic becomes integer arithmetic, `(end - start).days` becomes
  subtraction on `ℤ`;
- metric values (Python `float`/`int`) are modelled as exact rationals `ℚ`;
  the ordinary-least-squares fit of `sklearn.LinearRegression` is the exact
  textbook OLS line over `ℚ`;
- Python list indexing `l[i]` is modelled with `List.getD`; every theorem
  below only exercises in-range accesses;
- a raised `ValueError` (`DailyMetric.get`) is modelled as `none` /
  `RunError.dateNotCovered`; the `RuntimeError` branch of `_find_index` is
  the constructor `FindOutcome.runtimeFailure`, and the `while` loop of
  `_find_index` is given explicit fuel, `FindOutcome.fuelExhausted` standing
  for a loop that is still running after the fuel is spent.
-/

/-- `SingleDateMetric` from `src/data_processing.py`: one recorded
(date, value) sample. -/
structure SingleDateMetric where
  date : ℤ
  value : ℚ
deriving DecidableEq, Repr

/-- Default sample used by `List.getD`; no theorem below depends on an
out-of-range access returning it. -/
def dummyMetric : SingleDateMetric := ⟨0, 0⟩

/-- `SingleDateMetric.is_compatible_date`: equality with the stored date. -/
def SingleDateMetric.is_compatible_date (m : SingleDateMetric) (d : ℤ) : Bool :=
  d == m.date

/-- Python's builtin `round` as used in `LinearMetric._get_measurement_value`:
round to the nearest integer, ties going to the even integer
(banker's rounding, the semantics of `round` on Python/NumPy floats). -/
def roundHalfEven (q : ℚ) : ℤ :=
  if q - ⌊q⌋ < 1/2 then ⌊q⌋
  else if 1/2 < q - ⌊q⌋ then ⌊q⌋ + 1
  else if ⌊q⌋ % 2 = 0 then ⌊q⌋ else ⌊q⌋ + 1

/-- The state of a fitted `LinearMetric`: base date, fitted OLS line and the
output-type flag. -/
structure LinearMetric where
  base_date : ℤ
  slope : ℚ
  intercept : ℚ
  integer_outputs : Bool
deriving DecidableEq, Repr

/-- `LinearMetric.__init__` + `_generate_data` + `LinearRegression.fit`:
base date is the first datum's date, x values are day offsets from it, and
the OLS line is fitted through the points.  The degenerate denominator case
(all x equal) cannot arise from the windows the collection builds. -/
def linearFit (data : List (ℤ × ℚ)) (int_outputs : Bool) : LinearMetric :=
  let base := (data.headD (0, 0)).1
  let xs : List ℚ := data.map fun p => ((p.1 - base : ℤ) : ℚ)
  let ys : List ℚ := data.map fun p => p.2
  let n : ℚ := data.length
  let sx := xs.sum
  let sy := ys.sum
  let sxy := (List.zipWith (· * ·) xs ys).sum
  let sxx := (xs.map fun x => x * x).sum
  let denom := n * sxx - sx * sx
  let slope := if denom = 0 then 0 else (n * sxy - sx * sy) / denom
  let intercept := if n = 0 then 0 else (sy - slope * sx) / n
  ⟨base, slope, intercept, int_outputs⟩

/-- `LinearRegression.predict` composed with `_convert_date`: evaluate the
fitted line at the day offset of `d` from the base date. -/
def LinearMetric.predict (lm : LinearMetric) (d : ℤ) : ℚ :=
  lm.slope * ((d - lm.base_date : ℤ) : ℚ) + lm.intercept

/-- `LinearMetric._get_measurement_value`: the line's value, rounded by
Python `round` when integer outputs were requested. -/
def LinearMetric.measurement_value (lm : LinearMetric) (d : ℤ) : ℚ :=
  if lm.integer_outputs then (roundHalfEven (lm.predict d) : ℚ) else lm.predict d

/-- The `DailyMetric` hierarchy as a closed union:
`single` is `SingleDateMetric`, `extrap` is `LinearExtrapolationMetric`
(with its `_main_date` and `_end` flag), `interp` is
`LinearInterpolationMetric` (with its inclusive date bounds). -/
inductive DailyMetric where
  | single (m : SingleDateMetric)
  | extrap (lm : LinearMetric) (main_date : ℤ) (isEnd : Bool)
  | interp (lm : LinearMetric) (start_date : ℤ) (end_date : ℤ)
deriving DecidableEq, Repr

/-- The three `is_compatible_date` overrides. -/
def DailyMetric.is_compatible_date : DailyMetric → ℤ → Bool
  | .single m, d => m.is_compatible_date d
  | .extrap _ main isEnd, d => if isEnd then decide (main < d) else decide (d < main)
  | .interp _ s e, d => decide (s ≤ d) && decide (d ≤ e)

/-- The three `_get_measurement_value` overrides. -/
def DailyMetric.measurement_value : DailyMetric → ℤ → ℚ
  | .single m, _ => m.value
  | .extrap lm _ _, d => lm.measurement_value d
  | .interp lm _ _, d => lm.measurement_value d

/-- `DailyMetric.get`: check compatibility, then return the value; `none`
models the raised `ValueError` ("No measurement found for entered date"). -/
def DailyMetric.get (m : DailyMetric) (d : ℤ) : Option ℚ :=
  if m.is_compatible_date d then some (m.measurement_value d) else none

/-- `DailyMetricCollection`'s state after `__init__`. -/
structure DailyMetricCollection where
  integer_outputs : Bool
  extrapolation_range : Nat
  interpolation_range : Nat
  metrics : List SingleDateMetric
deriving Repr

/-- `DailyMetricCollection.__init__`: fixes both ranges to 3, stores the flag
and the input sorted by date (Python's `sorted` with key `a.date` is a stable
sort; `List.insertionSort` is also stable).  It performs no validation of any
kind. -/
def initCollection (data : List SingleDateMetric) (int_outputs : Bool) :
    DailyMetricCollection :=
  { integer_outputs := int_outputs
    interpolation_range := 3
    extrapolation_range := 3
    metrics := List.insertionSort (fun a b => a.date ≤ b.date) data }

/-- The forward `while` loop of `_get_data_around`: collect samples at
indices `forward, forward+1, ...` while fewer than `range` are collected and
the index is in bounds.  The first `Nat` argument is `forward`, the second
the remaining budget. -/
def forwardCollect (metrics : List SingleDateMetric) : Nat → Nat → List SingleDateMetric
  | _, 0 => []
  | forward, r + 1 =>
    if forward < metrics.length then
      metrics.getD forward dummyMetric :: forwardCollect metrics (forward + 1) r
    else []

/-- The rear `while` loop of `_get_data_around`: collect samples at indices
`rear, rear-1, ...` (front-inserted, so the result is ascending) while fewer
than `range` are collected and `rear ≥ 0`.  The first `Nat` argument is
`rear + 1`, so Python's guard `rear >= 0` is `0 < rp1`. -/
def rearCollect (metrics : List SingleDateMetric) : Nat → Nat → List SingleDateMetric
  | _, 0 => []
  | rp1, r + 1 =>
    if 0 < rp1 then
      rearCollect metrics (rp1 - 1) r ++ [metrics.getD (rp1 - 1) dummyMetric]
    else []

/-- `DailyMetricCollection._get_data_around`: rear window (indices
`index, index-1, ...`, ascending) followed by forward window (indices
`index+1, index+2, ...`). -/
def DailyMetricCollection.get_data_around (c : DailyMetricCollection)
    (index range : Nat) : List SingleDateMetric :=
  rearCollect c.metrics (index + 1) range ++ forwardCollect c.metrics (index + 1) range

/-- Result of `_find_index`: a normal return `(index, endpoint_flag)`, the
`RuntimeError` branch, or fuel exhaustion (the `while` loop still running). -/
inductive FindOutcome where
  | ok (index : Nat) (endpoint : Bool)
  | runtimeFailure
  | fuelExhausted
deriving DecidableEq, Repr

/-- The `while` loop of `DailyMetricCollection._find_index`.  The pointer
`(lower + upper) / 2` is inlined at each use; the loop guard
`0 <= lower < len and 0 <= upper <= len and upper != lower` loses its trivial
`0 ≤` parts on `Nat`. -/
def findIndexAux (metrics : List SingleDateMetric) (d : ℤ) :
    Nat → Nat → Nat → FindOutcome
  | _, _, 0 => .fuelExhausted
  | lower, upper, fuel + 1 =>
    if lower < metrics.length ∧ upper ≤ metrics.length ∧ upper ≠ lower then
      if (metrics.getD ((lower + upper) / 2) dummyMetric).date < d then
        if (lower + upper) / 2 = metrics.length - 1 then .ok 1 true
        else if d < (metrics.getD ((lower + upper) / 2 + 1) dummyMetric).date then
          .ok ((lower + upper) / 2) false
        else findIndexAux metrics d ((lower + upper) / 2) upper fuel
      else if d < (metrics.getD ((lower + upper) / 2) dummyMetric).date then
        if (lower + upper) / 2 = 0 then .ok 0 true
        else findIndexAux metrics d lower ((lower + upper) / 2) fuel
      else .ok ((lower + upper) / 2) false
    else if upper = lower then .ok upper false
    else .runtimeFailure

/-- `DailyMetricCollection._find_index`, starting from `lower = 0`,
`upper = len(metrics)`; `len + 1` units of fuel are proved sufficient. -/
def DailyMetricCollection.find_index (c : DailyMetricCollection) (d : ℤ) :
    FindOutcome :=
  findIndexAux c.metrics d 0 c.metrics.length (c.metrics.length + 1)

/-- `DailyMetricCollection._interpolate`: fit on the window around `index`,
valid between the dates at `index` and `index + 1`. -/
def DailyMetricCollection.interpolate (c : DailyMetricCollection) (index : Nat) :
    DailyMetric :=
  let data := c.get_data_around index c.interpolation_range
  DailyMetric.interp
    (linearFit (data.map fun m => (m.date, m.value)) c.integer_outputs)
    (c.metrics.getD index dummyMetric).date
    (c.metrics.getD (index + 1) dummyMetric).date

/-- `DailyMetricCollection._extrapolate`: fit on the window around index 0 or
`len - 1`; the boundary date is the window's first or last date
(`data[0].date` / `data[-1].date` in `LinearExtrapolationMetric.__init__`). -/
def DailyMetricCollection.extrapolate (c : DailyMetricCollection) (isEnd : Bool) :
    DailyMetric :=
  let index := if isEnd then c.metrics.length - 1 else 0
  let data := c.get_data_around index c.extrapolation_range
  DailyMetric.extrap
    (linearFit (data.map fun m => (m.date, m.value)) c.integer_outputs)
    (if isEnd then (data.getLastD dummyMetric).date else (data.headD dummyMetric).date)
    isEnd

/-- How a run of the generator `get` can fail:
`dateNotCovered` is the `ValueError` raised by `DailyMetric.get`;
`searchFailure` stands for `_find_index` not returning normally. -/
inductive RunError where
  | dateNotCovered
  | searchFailure
deriving DecidableEq, Repr

/-- The `while i <= diff` loop of `DailyMetricCollection.get`: one iteration
yields `current.get current_date` (stopping with `dateNotCovered` if it
raises), advances the date and runs the three-branch transition on
`(current, next_index)`.  `remaining` counts the iterations left,
`(diff + 1).toNat` initially. -/
def getLoop (c : DailyMetricCollection) (current : DailyMetric)
    (next_index : Nat) (current_date : ℤ) : Nat → List ℚ × Option RunError
  | 0 => ([], none)
  | r + 1 =>
    match current.get current_date with
    | none => ([], some .dateNotCovered)
    | some v =>
      let step :=
        if next_index = c.metrics.length then
          getLoop c (c.extrapolate true) next_index (current_date + 1) r
        else if next_index < c.metrics.length ∧
            (c.metrics.getD next_index dummyMetric).is_compatible_date (current_date + 1) then
          getLoop c (.single (c.metrics.getD next_index dummyMetric))
            (next_index + 1) (current_date + 1) r
        else if ¬ current.is_compatible_date (current_date + 1) then
          getLoop c (c.interpolate (next_index - 1)) (next_index + 1) (current_date + 1) r
        else
          getLoop c current next_index (current_date + 1) r
      (v :: step.1, step.2)

/-- `DailyMetricCollection.get`: resolve `start` with `_find_index`, pick the
starting estimator and cursor, then run the generator loop; the returned pair
is (values yielded, error that stopped the run, if any). -/
def DailyMetricCollection.get (c : DailyMetricCollection) (start e : ℤ) :
    List ℚ × Option RunError :=
  match c.find_index start with
  | .ok start_metric endpoint =>
    if endpoint then
      if start_metric = 0 then
        getLoop c (c.extrapolate false) 0 start (e - start + 1).toNat
      else
        getLoop c (c.extrapolate true) (c.metrics.length + 1) start (e - start + 1).toNat
    else if (c.metrics.getD start_metric dummyMetric).date = start then
      getLoop c (.single (c.metrics.getD start_metric dummyMetric))
        (start_metric + 1) start (e - start + 1).toNat
    else
      getLoop c (c.interpolate start_metric) (start_metric + 1) start (e - start + 1).toNat
  | _ => ([], some .searchFailure)

/-!  Concrete sample sets used to evaluate the engine. -/

/-- Samples at dates 0,1,2,4 (all values 0): strictly sorted, count 4 > 3,
so the representation invariant of `DailyMetricCollection` holds. -/
def c1Data : List SingleDateMetric := [⟨0, 0⟩, ⟨1, 0⟩, ⟨2, 0⟩, ⟨4, 0⟩]

/-- Samples at dates 0,1,2,3,5 (all values 0): strictly sorted, count 5 > 3. -/
def c3Data : List SingleDateMetric := [⟨0, 0⟩, ⟨1, 0⟩, ⟨2, 0⟩, ⟨3, 0⟩, ⟨5, 0⟩]

/-- Samples at dates 0,1,2,4,5 with value 10 at date 4 and 0 elsewhere:
strictly sorted, count 5 > 3. -/
def c4Data : List SingleDateMetric := [⟨0, 0⟩, ⟨1, 0⟩, ⟨2, 0⟩, ⟨4, 10⟩, ⟨5, 0⟩]

/-- The two samples of the spec's Scenario A: day 0 ↦ 10.0, day 4 ↦ 20.0. -/
def twoSampleData : List SingleDateMetric := [⟨0, 10⟩, ⟨4, 20⟩]

/-- The regression model fitted on Scenario A's two samples with integer
outputs (line value = 2.5·day + 10). -/
def scenarioModel : LinearMetric := linearFit [((0 : ℤ), (10 : ℚ)), (4, 20)] true

/-- Four samples with value equal to date, for exercising `_get_data_around`. -/
def demoWindowData : List SingleDateMetric := [⟨0, 0⟩, ⟨1, 1⟩, ⟨2, 2⟩, ⟨3, 3⟩]

/-- Strictly ascending dates (the spec's "sorted, duplicate-free" sample
set), as an executable predicate. -/
def strictlySortedByDate : List SingleDateMetric → Bool
  | [] => true
  | [_] => true
  | a :: b :: rest => decide (a.date < b.date) && strictlySortedByDate (b :: rest)

/- The arithmetic of `Rat` in this toolchain is sealed behind `irreducible`;
the concrete evaluations below need it to reduce. -/
attribute [local semireducible] Rat.add Rat.sub Rat.mul Rat.inv Rat.ofScientific

/-! ## General lemmas about the embedded operations -/

/-- The `_find_index` loop returns normally (`ok`) from any state satisfying
its invariants: `lower ≤ upper ≤ len`, the date is below the sample at
`upper` whenever `upper` is an in-range exclusive bound, and the fuel
exceeds `upper - lower`.  Neither the `RuntimeError` branch nor fuel
exhaustion is reachable. -/
theorem findIndexAux_isOk (metrics : List SingleDateMetric) (d : ℤ) :
    ∀ (fuel lower upper : Nat), lower ≤ upper → upper ≤ metrics.length →
      (upper < metrics.length → d < (metrics.getD upper dummyMetric).date) →
      upper - lower < fuel →
      ∃ i b, findIndexAux metrics d lower upper fuel = .ok i b := by
  intro fuel
  induction fuel with
  | zero => intro lower upper _ _ _ hf; omega
  | succ f ih =>
    intro lower upper hlu hul hinv hf
    by_cases heq : upper = lower
    · subst heq
      refine ⟨upper, false, ?_⟩
      simp only [findIndexAux]
      rw [if_neg (fun h => h.2.2 rfl)]
      simp
    · have hlt : lower < upper := by omega
      have hllen : lower < metrics.length := by omega
      simp only [findIndexAux]
      rw [if_pos ⟨hllen, hul, heq⟩]
      by_cases hgt : (metrics.getD ((lower + upper) / 2) dummyMetric).date < d
      · rw [if_pos hgt]
        by_cases hlast : (lower + upper) / 2 = metrics.length - 1
        · rw [if_pos hlast]; exact ⟨1, true, rfl⟩
        · rw [if_neg hlast]
          by_cases hnext : d < (metrics.getD ((lower + upper) / 2 + 1) dummyMetric).date
          · rw [if_pos hnext]; exact ⟨(lower + upper) / 2, false, rfl⟩
          · rw [if_neg hnext]
            by_cases hpl : (lower + upper) / 2 = lower
            · exfalso
              rw [hpl] at hlast hnext
              have hup : upper = lower + 1 := by omega
              have hulen : upper < metrics.length := by omega
              have hdlt := hinv hulen
              rw [hup] at hdlt
              exact hnext hdlt
            · exact ih ((lower + upper) / 2) upper (by omega) hul hinv (by omega)
      · rw [if_neg hgt]
        by_cases hlt2 : d < (metrics.getD ((lower + upper) / 2) dummyMetric).date
        · rw [if_pos hlt2]
          by_cases hp0 : (lower + upper) / 2 = 0
          · rw [if_pos hp0]; exact ⟨0, true, rfl⟩
          · rw [if_neg hp0]
            exact ih lower ((lower + upper) / 2) (by omega) (by omega)
              (fun _ => hlt2) (by omega)
        · rw [if_neg hlt2]; exact ⟨(lower + upper) / 2, false, rfl⟩

/-- `_find_index` always returns normally, for every metrics list and date:
it terminates, and the `RuntimeError` fallback is dead code. -/
theorem find_index_isOk (c : DailyMetricCollection) (d : ℤ) :
    ∃ i b, c.find_index d = FindOutcome.ok i b :=
  findIndexAux_isOk c.metrics d (c.metrics.length + 1) 0 c.metrics.length
    (Nat.zero_le _) (le_refl _) (fun h => absurd h (lt_irrefl _)) (by omega)

/-- The forward window loop collects the `range`-element prefix of the
suffix starting at `forward`. -/
theorem forwardCollect_eq_drop_take (metrics : List SingleDateMetric) :
    ∀ (r f : Nat), forwardCollect metrics f r = (metrics.drop f).take r := by
  intro r
  induction r with
  | zero => intro f; rfl
  | succ r ih =>
    intro f
    by_cases h : f < metrics.length
    · simp only [forwardCollect]
      rw [if_pos h, ih, List.drop_eq_getElem_cons h, List.take_succ_cons,
        List.getD_eq_getElem metrics dummyMetric h]
    · simp only [forwardCollect]
      rw [if_neg h, List.drop_eq_nil_of_le (by omega)]
      simp

/-- The rear window loop collects the last `min r rp1` elements of the
prefix of length `rp1` (in ascending index order). -/
theorem rearCollect_eq_take_drop (metrics : List SingleDateMetric) :
    ∀ (r rp1 : Nat), rp1 ≤ metrics.length →
      rearCollect metrics rp1 r = (metrics.take rp1).drop (rp1 - r) := by
  intro r
  induction r with
  | zero =>
    intro rp1 h
    simp only [rearCollect, Nat.sub_zero]
    exact (List.drop_eq_nil_of_le (by simp [List.length_take])).symm
  | succ r ih =>
    intro rp1 h
    simp only [rearCollect]
    by_cases h0 : 0 < rp1
    · rw [if_pos h0, ih (rp1 - 1) (by omega)]
      obtain ⟨k, rfl⟩ : ∃ k, rp1 = k + 1 := ⟨rp1 - 1, by omega⟩
      have hk : k < metrics.length := by omega
      have hlen : (metrics.take k).length = k := by
        rw [List.length_take]; omega
      have hle : k - r ≤ (metrics.take k).length := by
        rw [hlen]; omega
      simp only [Nat.add_sub_cancel, Nat.succ_sub_succ_eq_sub, Nat.sub_zero]
      rw [List.take_succ, List.getElem?_eq_getElem hk]
      simp only [Option.toList_some]
      rw [List.drop_append_of_le_length hle,
        List.getD_eq_getElem metrics dummyMetric hk]
    · rw [if_neg h0]
      have hz : rp1 = 0 := by omega
      subst hz
      simp

/-! ## Claims -/

/-- C1.  The claim asserts that for every collection satisfying the count
invariant and every range with start ≤ end, consuming `get`'s sequence never
invokes an estimator outside its validity (the `DateNotCovered` /
`ValueError` is unreachable through `get`'s state machine).  The code
violates this: on the strictly sorted 4-sample set at dates 0,1,2,4
(count 4 > 3) the run `get(0, 4)` yields four values and then raises
`DateNotCovered` while emitting day 4, because after entering the
interpolation of the final gap the cursor `next_index` equals the sample
count and the loop prematurely switches to after-the-end extrapolation,
which is invalid on day 4 itself. -/
theorem C1_dateNotCovered_reachable_through_get :
    (strictlySortedByDate c1Data ∧ 3 < c1Data.length) ∧
      (initCollection c1Data false).get 0 4 =
        ([0, 0, 0, 0], some RunError.dateNotCovered) := by
  decide

/-- C2.  The claim asserts that with samples {day0 ↦ 10.0, day4 ↦ 20.0} and
the implementation's radius 3, `get(day0, day4)` yields exactly
[10.0, 12.5, 15.0, 17.5, 20.0] without error.  It does not: this sample set
violates the count invariant (2 ≤ 3), and the run emits 10.0 and 12.5 and
then raises `DateNotCovered`. -/
theorem C2_scenarioA_counterexample :
    (initCollection twoSampleData false).get 0 4 ≠
      ([10, 25/2, 15, 35/2, 20], none) := by
  decide

/-- C2 (amended).  With the implementation's fixed radius 3, the 2-sample
Scenario A set violates the count invariant; `get(day0, day4)` emits 10.0
and 12.5 (the correct line values) and then fails with `DateNotCovered`. -/
theorem C2_scenarioA_amended :
    (initCollection twoSampleData false).get 0 4 =
      ([10, 25/2], some RunError.dateNotCovered) := by
  decide

/-- C3.  The claim asserts that every in-range `get(start, end)` on a valid
collection yields exactly (end − start).days + 1 values.  On the strictly
sorted 5-sample set at dates 0,1,2,3,5 (count 5 > 3), `get(0, 5)` must yield
6 values but yields only 5 before raising `DateNotCovered`. -/
theorem C3_count_shortfall :
    (strictlySortedByDate c3Data ∧ 3 < c3Data.length) ∧
      (initCollection c3Data false).get 0 5 =
        ([0, 0, 0, 0, 0], some RunError.dateNotCovered) ∧
      ((initCollection c3Data false).get 0 5).1.length ≠ ((5 : ℤ) - 0 + 1).toNat := by
  decide

/-- C4.  The claim asserts that a day equal to a stored sample's date is
always emitted with the stored value.  On dates 0,1,2,4,5 with value 10
stored at date 4 (count 5 > 3), `get(0, 5)` completes without error but
emits 150/43 (≈ 3.49) for day 4 instead of the stored 10: the in-loop
transition to the interpolation estimator advances `next_index` past the
sample at date 4, so the hand-off to its `Concrete` estimator is skipped
and the regression value is emitted at the sample date. -/
theorem C4_stored_sample_not_reproduced :
    (strictlySortedByDate c4Data ∧ 3 < c4Data.length) ∧
      (initCollection c4Data false).metrics.getD 3 dummyMetric = ⟨4, 10⟩ ∧
      (initCollection c4Data false).get 0 5 =
        ([0, 0, 0, 110/43, 150/43, 0], none) ∧
      ((initCollection c4Data false).get 0 5).1.getD 4 0 ≠ 10 := by
  decide

/-- C5.  The claim asserts that `get(start, end)` with start > end fails
with an `InvalidRange` error surfaced to the caller.  It does not: the code
never checks the precondition; `get(5, 2)` returns an empty sequence and no
error of any kind is raised. -/
theorem C5_invalid_range_counterexample :
    (initCollection c1Data false).get 5 2 = ([], none) := by
  decide

/-- C5 (amended).  For every collection holding at least one sample, `get`
with start > end emits no values and raises no error: the documented
precondition `start ≤ end` is not checked, the loop simply runs zero
iterations.  The non-emptiness hypothesis matters on the Python side: on an
empty collection the starting-estimator selection of `get` indexes
`_metrics[start_metric]` out of range and raises `IndexError` before the
loop, a path outside this embedding's in-range modelling of indexing. -/
theorem C5_invalid_range_amended (c : DailyMetricCollection) (s e : ℤ)
    (hne : c.metrics ≠ []) (h : e < s) : c.get s e = ([], none) := by
  obtain ⟨i, b, hib⟩ := find_index_isOk c s
  have h0 : (e - s + 1).toNat = 0 := by omega
  simp only [DailyMetricCollection.get, hib, h0]
  split_ifs <;> rfl

/-- Witness for C5 (amended) at `get(5, 2)` on the 4-sample collection. -/
theorem C5_invalid_range_amended_witness :
    ((initCollection c1Data false).metrics ≠ [] ∧ (2 : ℤ) < 5) ∧
      (initCollection c1Data false).get 5 2 = ([], none) :=
  ⟨⟨by decide, by decide⟩,
    C5_invalid_range_amended (initCollection c1Data false) 5 2 (by decide) (by decide)⟩

/-- C6.  The claim asserts that constructing a collection from an
undersized sample list (count ≤ max radius) fails at construction time and
never returns a usable collection.  It does not: `__init__` performs no
validation; from the 2-sample set (2 ≤ max(3,3)) it returns a collection
that stores both samples and whose `get(0, 0)` happily emits the stored
value 10. -/
theorem C6_construction_counterexample :
    twoSampleData.length ≤ max 3 3 ∧
      (initCollection twoSampleData false).metrics = twoSampleData ∧
      (initCollection twoSampleData false).get 0 0 = ([10], none) := by
  decide

/-- C6 (amended).  Construction always succeeds whatever the sample count:
`__init__` only sorts and stores the input (all samples are retained) and
sets the radii; no invariant is checked, so undersized inputs surface their
problems only later, inside `get`. -/
theorem C6_construction_amended (data : List SingleDateMetric) (b : Bool) :
    (initCollection data b).metrics.length = data.length ∧
      (initCollection data b).interpolation_range = 3 ∧
      (initCollection data b).extrapolation_range = 3 := by
  refine ⟨?_, rfl, rfl⟩
  simp [initCollection, List.length_insertionSort]

/-- C7.  The claim asserts that integer outputs round halves away from
zero, so the line value 12.5 yields 13.  It does not: Python's `round`
rounds halves to the even integer, and the Scenario A model (line value
12.5 at day 1) yields 12. -/
theorem C7_rounding_counterexample :
    scenarioModel.predict 1 = 25/2 ∧ scenarioModel.measurement_value 1 = 12 ∧
      (12 : ℚ) ≠ 13 := by
  decide

/-- C7 (amended).  With integer outputs the emitted value is the line value
rounded half-to-even (Python `round`): on the Scenario A model (line
2.5·d + 10 = (5d+20)/2) every date d evaluates to that rounding; 12.5 at
day 1 gives 12 and 17.5 at day 3 gives 18. -/
theorem C7_rounding_amended :
    (∀ d : ℤ, scenarioModel.measurement_value d =
        ((roundHalfEven ((5 * (d : ℚ) + 20) / 2) : ℤ) : ℚ)) ∧
      scenarioModel.measurement_value 1 = 12 ∧
      scenarioModel.measurement_value 3 = 18 := by
  have hM : scenarioModel = ⟨0, 5/2, 10, true⟩ := by decide
  refine ⟨fun d => ?_, by decide, by decide⟩
  rw [hM]
  simp only [LinearMetric.measurement_value, LinearMetric.predict, if_true]
  norm_num
  congr 2
  ring

/-- C8.  The claim asserts the window is up to `radius` samples strictly
before `index` plus up to `radius` at-or-after `index`; at `index = 1`,
`radius = 1` on four samples that predicts `[samples[0], samples[1]]`, but
the code returns `[samples[1], samples[2]]` (at-or-before plus
strictly-after). -/
theorem C8_window_counterexample :
    (initCollection demoWindowData false).get_data_around 1 1 =
        [⟨1, 1⟩, ⟨2, 2⟩] ∧
      ([(⟨1, 1⟩ : SingleDateMetric), ⟨2, 2⟩] : List SingleDateMetric) ≠
        [⟨0, 0⟩, ⟨1, 1⟩] := by
  decide

/-- C8 (amended).  For every in-range index and every radius, the window is,
in ascending order, up to `radius` samples at-or-BEFORE `index` (the suffix
of the prefix ending at `index`) followed by up to `radius` samples strictly
AFTER `index`, clipped at the array bounds. -/
theorem C8_window_amended (c : DailyMetricCollection) (index radius : Nat)
    (h : index < c.metrics.length) :
    c.get_data_around index radius =
      ((c.metrics.take (index + 1)).drop (index + 1 - radius)) ++
        ((c.metrics.drop (index + 1)).take radius) := by
  unfold DailyMetricCollection.get_data_around
  rw [rearCollect_eq_take_drop c.metrics radius (index + 1) (by omega),
    forwardCollect_eq_drop_take]

/-- Witness for C8 (amended) at index 1, radius 1 on the 4-sample window
data. -/
theorem C8_window_amended_witness :
    1 < (initCollection demoWindowData false).metrics.length ∧
      (initCollection demoWindowData false).get_data_around 1 1 =
        (((initCollection demoWindowData false).metrics.take 2).drop (2 - 1)) ++
          (((initCollection demoWindowData false).metrics.drop 2).take 1) :=
  ⟨by decide, C8_window_amended (initCollection demoWindowData false) 1 1 (by decide)⟩

/-- C9.  For every non-empty, strictly sorted sample list and every date,
`_find_index` terminates with a normal location result: the internal
`RuntimeError` ("failed to locate a suitable index") is unreachable. -/
theorem C9_find_index_total (c : DailyMetricCollection) (d : ℤ)
    (hsorted : strictlySortedByDate c.metrics) (hne : c.metrics ≠ []) :
    ∃ i b, c.find_index d = FindOutcome.ok i b :=
  find_index_isOk c d

/-- Witness for C9 on the sorted 4-sample collection at date 3. -/
theorem C9_find_index_total_witness :
    (strictlySortedByDate (initCollection c1Data false).metrics ∧
      (initCollection c1Data false).metrics ≠ []) ∧
      ∃ i b, (initCollection c1Data false).find_index 3 = FindOutcome.ok i b :=
  ⟨⟨by decide, by decide⟩,
    C9_find_index_total (initCollection c1Data false) 3 (by decide) (by decide)⟩

/-- C10.  `__init__` hardcodes both window radii to the constant 3 for every
input list and output-type flag; they are not constructor parameters. -/
theorem C10_radii_constant (data : List SingleDateMetric) (b : Bool) :
    (initCollection data b).interpolation_range = 3 ∧
      (initCollection data b).extrapolation_range = 3 :=
  ⟨rfl, rfl⟩
